import Mathlib

/-!
# Verification of the modbus-simulator core

A shallow embedding of the core of the `modbus-simulator` repository:
the per-device register simulation loop (`src/modbus/modbus_simulator.py`),
the TTL cache (`src/modbus/modbus_cache.py`), the value generator
(`src/modbus/modbus_data_generator.py`), the shared state store
(`src/core/config.py`) and the WebSocket connection pools and command
dispatch (`src/web/websocket_manager.py`).

Timestamps (Python `time.time()` / `datetime.now()`) are modelled as
rationals; register values and addresses as naturals; Python dicts as
association lists with replace-on-update semantics; Python sets as
`Finset Nat` over opaque connection identifiers.
-/

namespace ModbusSim

/-! ## Association-list model of Python dicts -/

/-- `m.get(k)` on a Python dict modelled as an association list. -/
def alookup {κ β : Type} [DecidableEq κ] (k : κ) : List (κ × β) → Option β
  | [] => none
  | (k', v) :: rest => if k' = k then some v else alookup k rest

/-- `m[k] = v` on a Python dict: replace the existing binding or append. -/
def aupdate {κ β : Type} [DecidableEq κ] (k : κ) (v : β) : List (κ × β) → List (κ × β)
  | [] => [(k, v)]
  | (k', v') :: rest => if k' = k then (k, v) :: rest else (k', v') :: aupdate k v rest

/-- `del m[k]` on a Python dict (keys are unique, so filtering is exact). -/
def aerase {κ β : Type} [DecidableEq κ] (k : κ) (m : List (κ × β)) : List (κ × β) :=
  m.filter (fun kv => kv.1 ≠ k)

theorem alookup_aupdate_self {κ β : Type} [DecidableEq κ] (k : κ) (v : β)
    (m : List (κ × β)) : alookup k (aupdate k v m) = some v := by
  induction m with
  | nil => simp [aupdate, alookup]
  | cons kv rest ih =>
    obtain ⟨k', v'⟩ := kv
    by_cases h : k' = k
    · simp [aupdate, alookup, h]
    · simp [aupdate, alookup, h, ih]

theorem alookup_aupdate_ne {κ β : Type} [DecidableEq κ] {k k' : κ} (v : β)
    (m : List (κ × β)) (h : k ≠ k') : alookup k' (aupdate k v m) = alookup k' m := by
  induction m with
  | nil => simp [aupdate, alookup, h]
  | cons kv rest ih =>
    obtain ⟨k₀, v₀⟩ := kv
    by_cases h0 : k₀ = k
    · subst h0
      simp [aupdate, alookup, h]
    · by_cases h1 : k₀ = k'
      · simp [aupdate, alookup, h0, h1, Ne.symm h]
      · simp [aupdate, alookup, h0, h1, ih]

theorem alookup_aerase {κ β : Type} [DecidableEq κ] (k k' : κ) (m : List (κ × β)) :
    alookup k' (aerase k m) = if k = k' then none else alookup k' m := by
  induction m with
  | nil => simp [aerase, alookup]
  | cons kv rest ih =>
    obtain ⟨k₀, v₀⟩ := kv
    by_cases h0 : k₀ = k
    · subst h0
      by_cases h1 : k₀ = k' <;> simp_all [aerase, alookup]
    · by_cases h1 : k₀ = k'
      · subst h1
        have h2 : ¬ k = k₀ := fun e => h0 e.symm
        simp_all [aerase, alookup]
      · simp_all [aerase, alookup]

theorem aerase_aerase {κ β : Type} [DecidableEq κ] (k : κ) (m : List (κ × β)) :
    aerase k (aerase k m) = aerase k m := by
  simp [aerase, List.filter_filter]

/-! ## Data model: value sets and device status

`ModbusDataGenerator` produces lists of dicts
`{'type': 'IR'|'HR'|'CO'|'DI', 'address': n, 'value': n}`
(`src/modbus/modbus_data_generator.py`). -/

/-- The `'type'` tag of a generated data item. -/
inductive RegType where
  | IR
  | HR
  | CO
  | DI
deriving DecidableEq, Repr

/-- One generated data item `{'type': t, 'address': a, 'value': v}`. -/
structure DataItem where
  type : RegType
  address : Nat
  value : Nat
deriving DecidableEq, Repr

/-- A ValueSet: one generation cycle's list of data items for a device. -/
abbrev ValueSet := List DataItem

/-- A published device snapshot
`{'name': .., 'data': .., 'last_update': ..}`
(`modbus_simulator.py` line 100). -/
structure DeviceStatus where
  name : String
  data : ValueSet
  last_update : ℚ
deriving DecidableEq, Repr

/-! ## SharedState (`src/core/config.py` lines 35-69) -/

/-- The process-wide shared state object (`config.SharedState`). -/
structure SharedState where
  modbus_running : Bool
  web_running : Bool
  last_error : Option String
  last_error_time : Option ℚ
  device_status : List (Nat × DeviceStatus)
deriving DecidableEq

/-- `SharedState.__init__`. -/
def SharedState.init : SharedState :=
  { modbus_running := false
    web_running := false
    last_error := none
    last_error_time := none
    device_status := [] }

/-- `SharedState.set_error(error)`: stores the message and `datetime.now()`. -/
def SharedState.set_error (s : SharedState) (error : String) (now : ℚ) : SharedState :=
  { s with last_error := some error, last_error_time := some now }

/-- `SharedState.clear_error()`. -/
def SharedState.clear_error (s : SharedState) : SharedState :=
  { s with last_error := none, last_error_time := none }

/-- `SharedState.update_device_status(device_id, status)`. -/
def SharedState.update_device_status (s : SharedState) (device_id : Nat)
    (status : DeviceStatus) : SharedState :=
  { s with device_status := aupdate device_id status s.device_status }

/-- `SharedState.get_device_status(device_id)`. -/
def SharedState.get_device_status (s : SharedState) (device_id : Nat) :
    Option DeviceStatus :=
  alookup device_id s.device_status

/-- `SharedState.get_all_device_status()` (returns a copy of the dict). -/
def SharedState.get_all_device_status (s : SharedState) : List (Nat × DeviceStatus) :=
  s.device_status

/-! ## Register banks (`pymodbus` slave context)

`ModbusSimulator._init_datastore` builds one `ModbusSlaveContext` per
device, with four `ModbusSequentialDataBlock(0, [0]*100)` blocks passed
as `di=`, `co=`, `hr=`, `ir=` (`modbus_simulator.py` lines 54-65).
Each block is modelled as a total map `Nat → Nat` initialised to zero
(every address the simulator touches is below 100).

`ModbusSlaveContext.setValues(fc, address, values)` is external library
code (`pymodbus.datastore.ModbusSlaveContext`).  Its documented decode
table from function code to block — standard Modbus function codes — is
`1, 5, 15 → co` (coils), `2 → di` (discrete inputs),
`3, 6, 16, 22, 23 → hr` (holding registers), `4 → ir` (input
registers); we embed that table verbatim. -/

/-- The four address spaces of a slave's register bank. -/
inductive Space where
  | coil
  | discrete
  | holding
  | input
deriving DecidableEq, Repr

/-- `pymodbus` function-code decode: which block a function code addresses. -/
def fxDecode (fc : Nat) : Option Space :=
  if fc = 1 ∨ fc = 5 ∨ fc = 15 then some Space.coil
  else if fc = 2 then some Space.discrete
  else if fc = 3 ∨ fc = 6 ∨ fc = 16 ∨ fc = 22 ∨ fc = 23 then some Space.holding
  else if fc = 4 then some Space.input
  else none

/-- One device's register bank: the four data blocks of a
`ModbusSlaveContext`. -/
structure SlaveContext where
  di : Nat → Nat
  co : Nat → Nat
  hr : Nat → Nat
  ir : Nat → Nat

/-- The freshly initialised context: four all-zero blocks. -/
def SlaveContext.init : SlaveContext :=
  ⟨fun _ => 0, fun _ => 0, fun _ => 0, fun _ => 0⟩

/-- Read one address of one space of the bank. -/
def SlaveContext.read (ctx : SlaveContext) (s : Space) (address : Nat) : Nat :=
  match s with
  | Space.coil => ctx.co address
  | Space.discrete => ctx.di address
  | Space.holding => ctx.hr address
  | Space.input => ctx.ir address

/-- `context.setValues(fc, address, [value])`: route the single-value write
through the function-code decode table. -/
def SlaveContext.setValues (ctx : SlaveContext) (fc address value : Nat) :
    SlaveContext :=
  match fxDecode fc with
  | some Space.coil =>
      { ctx with co := fun a => if a = address then value else ctx.co a }
  | some Space.discrete =>
      { ctx with di := fun a => if a = address then value else ctx.di a }
  | some Space.holding =>
      { ctx with hr := fun a => if a = address then value else ctx.hr a }
  | some Space.input =>
      { ctx with ir := fun a => if a = address then value else ctx.ir a }
  | none => ctx

/-! ## `ModbusSimulator._update_slave_data` (lines 67-106)

The success path of `_update_slave_data`, with the ValueSet (either the
cache hit or the freshly generated data) passed in: write every data
item into the slave context — `IR` items via `setValues(3, ..)`, `HR`
via `setValues(4, ..)`, `CO` via `setValues(1, ..)`, `DI` via
`setValues(2, ..)` (lines 89-97) — then publish
`{'name': .., 'data': simulated_data, 'last_update': current_time}`
into the shared state (lines 100-104). -/

/-- The per-item register write of `_update_slave_data` (lines 90-97). -/
def writeItem (ctx : SlaveContext) (it : DataItem) : SlaveContext :=
  match it.type with
  | RegType.IR => ctx.setValues 3 it.address it.value
  | RegType.HR => ctx.setValues 4 it.address it.value
  | RegType.CO => ctx.setValues 1 it.address it.value
  | RegType.DI => ctx.setValues 2 it.address it.value

/-- The success path of `_update_slave_data`: register writes in list
order, then the `update_device_status` publish. -/
def updateSlaveData (ctx : SlaveContext) (st : SharedState) (slave_id : Nat)
    (name : String) (simulated_data : ValueSet) (current_time : ℚ) :
    SlaveContext × SharedState :=
  (simulated_data.foldl writeItem ctx,
   st.update_device_status slave_id
     { name := name, data := simulated_data, last_update := current_time })

/-! ## `ModbusCache` (`src/modbus/modbus_cache.py`)

The cache key is the string `f"slave_{slave_id}"`, injective in
`slave_id`; we key directly by the id. -/

/-- The cache state (`ModbusCache.__init__`, timeout default 5,
cleanup interval 300). -/
structure ModbusCache where
  data_cache : List (Nat × (ValueSet × ℚ))
  cache_timeout : ℚ
  last_cache_cleanup : ℚ
  cache_cleanup_interval : ℚ
deriving DecidableEq

/-- `ModbusCache(timeout)` constructed at time `now`
(`_last_cache_cleanup = time.time()`, cleanup interval 300 s). -/
def ModbusCache.mk0 (timeout now : ℚ) : ModbusCache :=
  { data_cache := []
    cache_timeout := timeout
    last_cache_cleanup := now
    cache_cleanup_interval := 300 }

/-- `ModbusCache.get(slave_id)` at current time `now` (lines 25-44):
returns the cached list iff present and `now - timestamp <= timeout`;
never mutates the cache. -/
def ModbusCache.get (c : ModbusCache) (now : ℚ) (slave_id : Nat) :
    Option ValueSet :=
  match alookup slave_id c.data_cache with
  | some (data, timestamp) =>
      if now - timestamp ≤ c.cache_timeout then some data else none
  | none => none

/-- `ModbusCache.set(slave_id, data)` at current time `now` (lines 46-56). -/
def ModbusCache.set (c : ModbusCache) (now : ℚ) (slave_id : Nat)
    (data : ValueSet) : ModbusCache :=
  { c with data_cache := aupdate slave_id (data, now) c.data_cache }

/-- `ModbusCache.cleanup()` at current time `now` (lines 58-80):
rate-limited sweep deleting entries strictly older than the timeout. -/
def ModbusCache.cleanup (c : ModbusCache) (now : ℚ) : ModbusCache :=
  if now - c.last_cache_cleanup < c.cache_cleanup_interval then c
  else
    { c with
      data_cache := c.data_cache.filter
        (fun kv => ¬ c.cache_timeout < now - kv.2.2)
      last_cache_cleanup := now }

/-! ## `ModbusDataGenerator` (`src/modbus/modbus_data_generator.py`)

`random.randint(lo, hi)` (external library, inclusive bounds) is
modelled by a draw function `r : Nat → Nat → Nat` supplied as a
parameter; `RandintSpec r` is its documented contract. -/

/-- The contract of `random.randint`: a result within the inclusive
bounds whenever they are ordered. -/
def RandintSpec (r : Nat → Nat → Nat) : Prop :=
  ∀ lo hi : Nat, lo ≤ hi → lo ≤ r lo hi ∧ r lo hi ≤ hi

/-- `_generate_temperature_humidity_data` (device 1). -/
def generateTemperatureHumidityData (r : Nat → Nat → Nat) : ValueSet :=
  [ { type := RegType.IR, address := 0, value := r 150 350 },
    { type := RegType.IR, address := 1, value := r 300 800 },
    { type := RegType.IR, address := 2, value := r 0 100 } ]

/-- `_generate_power_meter_data` (device 2). -/
def generatePowerMeterData (r : Nat → Nat → Nat) : ValueSet :=
  [ { type := RegType.IR, address := 0, value := r 2200 2400 },
    { type := RegType.IR, address := 1, value := r 0 1000 },
    { type := RegType.IR, address := 2, value := r 0 24000 },
    { type := RegType.IR, address := 3, value := r 0 10000 },
    { type := RegType.IR, address := 4, value := r 4900 5100 } ]

/-- `_generate_ac_controller_data` (device 3). -/
def generateAcControllerData (r : Nat → Nat → Nat) : ValueSet :=
  [ { type := RegType.IR, address := 0, value := r 150 350 },
    { type := RegType.HR, address := 50, value := r 160 300 },
    { type := RegType.HR, address := 51, value := r 0 2 },
    { type := RegType.CO, address := 0, value := 0 } ]

/-- `_generate_air_quality_data` (device 4). -/
def generateAirQualityData (r : Nat → Nat → Nat) : ValueSet :=
  [ { type := RegType.IR, address := 0, value := r 0 1000 },
    { type := RegType.IR, address := 1, value := r 0 500 },
    { type := RegType.IR, address := 2, value := r 0 100 } ]

/-- `_generate_plc_io_data` (device 5). -/
def generatePlcIoData (r : Nat → Nat → Nat) : ValueSet :=
  [ { type := RegType.DI, address := 0, value := r 0 1 },
    { type := RegType.DI, address := 1, value := r 0 1 },
    { type := RegType.CO, address := 0, value := r 0 1 },
    { type := RegType.CO, address := 1, value := r 0 1 } ]

/-- `_generate_light_controller_data` (device 6). -/
def generateLightControllerData (r : Nat → Nat → Nat) : ValueSet :=
  [ { type := RegType.CO, address := 0, value := r 0 1 },
    { type := RegType.HR, address := 0, value := r 0 100 },
    { type := RegType.HR, address := 1, value := r 2700 6500 } ]

/-- `_generate_smart_plug_data` (device 7). -/
def generateSmartPlugData (r : Nat → Nat → Nat) : ValueSet :=
  [ { type := RegType.IR, address := 0, value := r 2200 2400 },
    { type := RegType.IR, address := 1, value := r 0 1000 },
    { type := RegType.CO, address := 0, value := 0 } ]

/-- `ModbusDataGenerator.generate_simulated_data(slave_id)`: dictionary
dispatch on the slave id, empty list when the id is unknown. -/
def generate_simulated_data (r : Nat → Nat → Nat) (slave_id : Nat) : ValueSet :=
  if slave_id = 1 then generateTemperatureHumidityData r
  else if slave_id = 2 then generatePowerMeterData r
  else if slave_id = 3 then generateAcControllerData r
  else if slave_id = 4 then generateAirQualityData r
  else if slave_id = 5 then generatePlcIoData r
  else if slave_id = 6 then generateLightControllerData r
  else if slave_id = 7 then generateSmartPlugData r
  else []

/-- The inclusive value range documented (source comments) for each
`(device, space, address)` slot the generator produces. -/
def docBounds (slave_id : Nat) (t : RegType) (address : Nat) :
    Option (Nat × Nat) :=
  match slave_id, t, address with
  | 1, RegType.IR, 0 => some (150, 350)
  | 1, RegType.IR, 1 => some (300, 800)
  | 1, RegType.IR, 2 => some (0, 100)
  | 2, RegType.IR, 0 => some (2200, 2400)
  | 2, RegType.IR, 1 => some (0, 1000)
  | 2, RegType.IR, 2 => some (0, 24000)
  | 2, RegType.IR, 3 => some (0, 10000)
  | 2, RegType.IR, 4 => some (4900, 5100)
  | 3, RegType.IR, 0 => some (150, 350)
  | 3, RegType.HR, 50 => some (160, 300)
  | 3, RegType.HR, 51 => some (0, 2)
  | 3, RegType.CO, 0 => some (0, 1)
  | 4, RegType.IR, 0 => some (0, 1000)
  | 4, RegType.IR, 1 => some (0, 500)
  | 4, RegType.IR, 2 => some (0, 100)
  | 5, RegType.DI, 0 => some (0, 1)
  | 5, RegType.DI, 1 => some (0, 1)
  | 5, RegType.CO, 0 => some (0, 1)
  | 5, RegType.CO, 1 => some (0, 1)
  | 6, RegType.CO, 0 => some (0, 1)
  | 6, RegType.HR, 0 => some (0, 100)
  | 6, RegType.HR, 1 => some (2700, 6500)
  | 7, RegType.IR, 0 => some (2200, 2400)
  | 7, RegType.IR, 1 => some (0, 1000)
  | 7, RegType.CO, 0 => some (0, 1)
  | _, _, _ => none

/-- The fixed `(space, address)` shape each known device id produces. -/
def fixedShape (slave_id : Nat) : List (RegType × Nat) :=
  if slave_id = 1 then [(RegType.IR, 0), (RegType.IR, 1), (RegType.IR, 2)]
  else if slave_id = 2 then
    [(RegType.IR, 0), (RegType.IR, 1), (RegType.IR, 2), (RegType.IR, 3),
     (RegType.IR, 4)]
  else if slave_id = 3 then
    [(RegType.IR, 0), (RegType.HR, 50), (RegType.HR, 51), (RegType.CO, 0)]
  else if slave_id = 4 then [(RegType.IR, 0), (RegType.IR, 1), (RegType.IR, 2)]
  else if slave_id = 5 then
    [(RegType.DI, 0), (RegType.DI, 1), (RegType.CO, 0), (RegType.CO, 1)]
  else if slave_id = 6 then [(RegType.CO, 0), (RegType.HR, 0), (RegType.HR, 1)]
  else if slave_id = 7 then [(RegType.IR, 0), (RegType.IR, 1), (RegType.CO, 0)]
  else []

/-! ## The engine error counter (`ModbusSimulator`, lines 108-178)

`_update_slave_data` wraps the whole per-device update in `try/except`:
a failure increments `self._error_count` and re-raises exactly when the
count has reached `self._max_errors` (lines 108-114); that exception is
caught by `_update_values`, which then sets `self.running = False` and
propagates (lines 171-177).  Once per tick, if
`current_time - last_error_reset >= 60` the counter is reset to zero
(lines 155-160).  Whether a given device update fails depends on the
environment (generator/cache/datastore exceptions), so a tick is
modelled by the list of failure outcomes of the per-device updates it
performs. -/

/-- The engine state relevant to the rolling error counter. -/
structure EngineState where
  error_count : Nat
  max_errors : Nat
  last_error_reset : ℚ
  running : Bool
  fatal : Bool
deriving DecidableEq, Repr

/-- Number of failed updates in a tick's outcome list. -/
def countFails : List Bool → Nat
  | [] => 0
  | true :: rest => countFails rest + 1
  | false :: rest => countFails rest

/-- The per-device loop of one tick (lines 162-167 driving lines
108-114): each failure increments the counter; when the incremented
counter reaches `max_errors` the exception propagates and the remaining
devices of this tick are skipped.  Returns the final counter and
whether the fatal exception propagated. -/
def processSlaves (max_errors : Nat) : List Bool → Nat → Nat × Bool
  | [], c => (c, false)
  | failed :: rest, c =>
    if failed then
      if max_errors ≤ c + 1 then (c + 1, true)
      else processSlaves max_errors rest (c + 1)
    else processSlaves max_errors rest c

/-- One iteration of the `while self.running` loop of `_update_values`:
the rolling-window reset check (interval 60 s), then the per-device
updates; a propagated fatal exception sets `running = False` and ends
the loop. -/
def engineTick (s : EngineState) (now : ℚ) (outcomes : List Bool) : EngineState :=
  if s.running then
    let s1 :=
      if 60 ≤ now - s.last_error_reset then
        { s with error_count := 0, last_error_reset := now }
      else s
    let res := processSlaves s1.max_errors outcomes s1.error_count
    if res.2 then
      { s1 with error_count := res.1, running := false, fatal := true }
    else
      { s1 with error_count := res.1 }
  else s

/-- The counter state after the tick's reset check (lines 155-160). -/
def resetAdjusted (s : EngineState) (now : ℚ) : Nat :=
  if 60 ≤ now - s.last_error_reset then 0 else s.error_count

/-! ## Per-device update scheduling (`_update_values`, lines 143-169)

Projected onto one device `d`: each tick reads `current_time`, and
performs the update iff `current_time - last_updates[d] >=
update_interval`, in which case both the published snapshot's
`last_update` and `last_updates[d]` become `current_time`
(lines 163-167 together with line 103). -/

/-- The publish times for one device over a run of ticks: `ticks` are
the tick times, `last` the device's `last_updates` value. -/
def publishTimes (interval : ℚ) : List ℚ → ℚ → List ℚ
  | [], _ => []
  | t :: rest, last =>
    if interval ≤ t - last then t :: publishTimes interval rest t
    else publishTimes interval rest last

/-! ## Connection pools (`src/web/websocket_manager.py`)

WebSocket objects are opaque handles; we model them as natural-number
identifiers.  `self.connections` is a Python `set` (a `Finset Nat`),
`self._last_heartbeat` a dict keyed by connection. -/

/-- `ConnectionManager` state (lines 13-22): default
`max_connections = 100`, `heartbeat_timeout = BASE_CONFIG
["HEARTBEAT_TIMEOUT"] = 30`. -/
structure ConnectionManager where
  connections : Finset Nat
  max_connections : Nat
  last_heartbeat : List (Nat × ℚ)
  heartbeat_timeout : ℚ
deriving DecidableEq

/-- A fresh pool (`__init__`, defaults from `BASE_CONFIG`). -/
def ConnectionManager.init : ConnectionManager :=
  { connections := ∅
    max_connections := 100
    last_heartbeat := []
    heartbeat_timeout := 30 }

/-- `ConnectionManager.connect(websocket)` at time `now` (lines 24-32):
raises (state unchanged) when the pool already holds
`max_connections`; otherwise accepts, adds to the set and records
`last_heartbeat[websocket] = now`. -/
def ConnectionManager.connect (p : ConnectionManager) (ws : Nat) (now : ℚ) :
    Except String ConnectionManager :=
  if p.max_connections ≤ p.connections.card then
    Except.error "Maximum connection limit reached"
  else
    Except.ok
      { p with
        connections := insert ws p.connections
        last_heartbeat := aupdate ws now p.last_heartbeat }

/-- `ConnectionManager.disconnect(websocket)` (lines 34-43): removes the
connection from the set when present (warns otherwise) and deletes its
heartbeat entry when present. -/
def ConnectionManager.disconnect (p : ConnectionManager) (ws : Nat) :
    ConnectionManager :=
  { p with
    connections := p.connections.erase ws
    last_heartbeat := aerase ws p.last_heartbeat }

/-- `ConnectionManager.update_heartbeat(websocket)` at time `now`
(lines 45-48). -/
def ConnectionManager.update_heartbeat (p : ConnectionManager) (ws : Nat)
    (now : ℚ) : ConnectionManager :=
  { p with last_heartbeat := aupdate ws now p.last_heartbeat }

/-- The timeout test of `check_heartbeats` (lines 57-61): a connection
is collected when it has no heartbeat entry or
`current_time - last_heartbeat > heartbeat_timeout`. -/
def ConnectionManager.timedOut (p : ConnectionManager) (now : ℚ) (ws : Nat) :
    Bool :=
  match alookup ws p.last_heartbeat with
  | none => true
  | some t => p.heartbeat_timeout < now - t

/-- `ConnectionManager.check_heartbeats()` at time `now` (lines 50-70):
collect the timed-out connections of the pool, then `disconnect` each. -/
def ConnectionManager.check_heartbeats (p : ConnectionManager) (now : ℚ) :
    ConnectionManager :=
  ((p.connections.filter (fun ws => p.timedOut now ws)).sort (· ≤ ·)).foldl
    (fun q ws => q.disconnect ws) p

/-! ## `DeviceConnectionManager` (lines 73-115) -/

/-- The initial `device_status` message sent on acceptance
(lines 84-90), with its `devices` payload. -/
structure DeviceStatusMessage where
  type : String
  timestamp : ℚ
  devices : List (String × DeviceStatus)
deriving DecidableEq

/-- `DeviceConnectionManager` state: the base pool plus the
per-pool device-state cache `_device_states` (keyed by the string
device id) and `_last_update_time`. -/
structure DeviceConnectionManager where
  base : ConnectionManager
  device_states : List (String × DeviceStatus)
  last_update_time : List (String × ℚ)
deriving DecidableEq

/-- A fresh device pool (`__init__`, lines 76-79). -/
def DeviceConnectionManager.init : DeviceConnectionManager :=
  { base := ConnectionManager.init, device_states := [], last_update_time := [] }

/-- `DeviceConnectionManager.connect(websocket)` at time `now`
(lines 81-90): the base `connect`, then the initial `device_status`
message built from `self._device_states`. -/
def DeviceConnectionManager.connect (d : DeviceConnectionManager) (ws : Nat)
    (now : ℚ) : Except String (DeviceConnectionManager × DeviceStatusMessage) :=
  match d.base.connect ws now with
  | Except.error e => Except.error e
  | Except.ok b =>
      Except.ok
        ({ d with base := b },
         { type := "device_status", timestamp := now, devices := d.device_states })

/-- `DeviceConnectionManager.update_device_state(device_id, device_data)`
at time `now` (lines 107-115). -/
def DeviceConnectionManager.update_device_state (d : DeviceConnectionManager)
    (device_id : String) (device_data : DeviceStatus) (now : ℚ) :
    DeviceConnectionManager :=
  { d with
    device_states := aupdate device_id device_data d.device_states
    last_update_time := aupdate device_id now d.last_update_time }

/-! ## `WebSocketManager._handle_control` (lines 268-291)

The inbound `control` message and its handling: the four fields are
read with `message.get(..)`; the guard is
`all([device_id, register_type, address, value is not None])` — Python
truthiness for the first three (`None`, the empty string and the
integer `0` are all falsy) and an explicit `is not None` test for
`value` only.  On a well-formed command the handler issues the
protocol-client write (`write_coil` for `"CO"`, `write_register` for
`"HR"`, with `unit=int(device_id)`), then mirrors
`shared_state.get_device_status(int(device_id))` into the device pool's
cache.  `int(device_id)` raising (non-numeric id) is caught by the
surrounding `except`, ending the handler. -/

/-- Decimal digit value of a character, as used by Python `int`. -/
def digitVal (c : Char) : Option Nat :=
  if 48 ≤ c.toNat ∧ c.toNat ≤ 57 then some (c.toNat - 48) else none

/-- Accumulator loop for `pyInt`. -/
def pyIntAux : List Char → Nat → Option Nat
  | [], acc => some acc
  | c :: rest, acc =>
    match digitVal c with
    | some d => pyIntAux rest (acc * 10 + d)
    | none => none

/-- Python `int(s)` on the device-id strings the handler receives
(non-negative decimal literals); `none` models the `ValueError` the
surrounding `except` catches. -/
def pyInt (s : String) : Option Nat :=
  match s.data with
  | [] => none
  | l => pyIntAux l 0

/-- An inbound `control` message; absent JSON fields are `none`. -/
structure ControlMessage where
  deviceId : Option String
  registerType : Option String
  address : Option Int
  value : Option Int
deriving DecidableEq

/-- Python truthiness of an optional string (`None` and `""` are falsy). -/
def truthyStr : Option String → Bool
  | none => false
  | some s => !(s = "")

/-- Python truthiness of an optional integer (`None` and `0` are falsy). -/
def truthyInt : Option Int → Bool
  | none => false
  | some n => !(n = 0)

/-- A write issued through the external Modbus protocol client. -/
inductive WriteAction where
  | writeCoil (address : Int) (value : Bool) (unit : Nat)
  | writeRegister (address : Int) (value : Int) (unit : Nat)
deriving DecidableEq, Repr

/-- `_handle_control(websocket, message)`: returns the protocol-client
writes issued and the updated device-pool state. -/
def handleControl (st : SharedState) (d : DeviceConnectionManager)
    (now : ℚ) (message : ControlMessage) :
    List WriteAction × DeviceConnectionManager :=
  if truthyStr message.deviceId && truthyStr message.registerType
      && truthyInt message.address && message.value.isSome then
    match message.deviceId, message.registerType, message.address,
        message.value with
    | some device_id, some register_type, some address, some value =>
        match pyInt device_id with
        | none => ([], d)
        | some uid =>
            let writes :=
              if register_type = "CO" then
                [WriteAction.writeCoil address (value ≠ 0) uid]
              else if register_type = "HR" then
                [WriteAction.writeRegister address value uid]
              else []
            match st.get_device_status uid with
            | some device_status =>
                (writes, d.update_device_state device_id device_status now)
            | none => (writes, d)
    | _, _, _, _ => ([], d)
  else ([], d)

/-! ## Operation traces

Histories of calls against one store instance, used to state the
trace-level claims. -/

/-- A cache-mutating call: `set(slave_id, data)` issued at time `t`
(`get` and a rate-limited-out `cleanup` do not mutate). -/
inductive CacheOp where
  | set (slave_id : Nat) (data : ValueSet) (t : ℚ)
deriving DecidableEq

/-- Run a history of `set` calls against a cache. -/
def runCache (c : ModbusCache) : List CacheOp → ModbusCache
  | [] => c
  | CacheOp.set slave_id data t :: rest => runCache (c.set t slave_id data) rest

/-- The most recent `set` for `slave_id` in a history, with its time. -/
def lastSet (slave_id : Nat) : List CacheOp → Option (ValueSet × ℚ)
  | [] => none
  | CacheOp.set id' data t :: rest =>
    match lastSet slave_id rest with
    | some e => some e
    | none => if id' = slave_id then some (data, t) else none

/-- A pool call: `connect(ws)` at time `t`, or `disconnect(ws)`. -/
inductive PoolOp where
  | connect (ws : Nat) (t : ℚ)
  | disconnect (ws : Nat)
deriving DecidableEq

/-- Run a history of pool calls; a rejected `connect` (the raised
exception) leaves the pool unchanged. -/
def runPool (p : ConnectionManager) : List PoolOp → ConnectionManager
  | [] => p
  | PoolOp.connect ws t :: rest =>
    match p.connect ws t with
    | Except.ok p' => runPool p' rest
    | Except.error _ => runPool p rest
  | PoolOp.disconnect ws :: rest => runPool (p.disconnect ws) rest

/-- A mutating call against the `SharedState` store (`config.py`
lines 35-69; the two running flags are plain attribute assignments made
by the simulator and web layers). -/
inductive StateOp where
  | setError (error : String) (now : ℚ)
  | clearError
  | updateDeviceStatus (device_id : Nat) (status : DeviceStatus)
  | setModbusRunning (b : Bool)
  | setWebRunning (b : Bool)
deriving DecidableEq

/-- Apply one `SharedState` call. -/
def applyStateOp (s : SharedState) : StateOp → SharedState
  | StateOp.setError error now => s.set_error error now
  | StateOp.clearError => s.clear_error
  | StateOp.updateDeviceStatus device_id status =>
      s.update_device_status device_id status
  | StateOp.setModbusRunning b => { s with modbus_running := b }
  | StateOp.setWebRunning b => { s with web_running := b }

/-- Run a history of `SharedState` calls from the initial state. -/
def runState (s : SharedState) (ops : List StateOp) : SharedState :=
  ops.foldl applyStateOp s

/-- The C10 invariant: the error slot and its timestamp are populated
together. -/
def errConsistent (s : SharedState) : Prop :=
  (s.last_error = none ↔ s.last_error_time = none)

/-! ## Theorems -/

/-! ### C10: the error slot and its timestamp move together -/

theorem errConsistent_apply (s : SharedState) (op : StateOp)
    (h : errConsistent s) : errConsistent (applyStateOp s op) := by
  cases op <;>
    simp_all [applyStateOp, SharedState.set_error, SharedState.clear_error,
      SharedState.update_device_status, errConsistent]

theorem errConsistent_run (s : SharedState) (ops : List StateOp)
    (h : errConsistent s) : errConsistent (runState s ops) := by
  induction ops generalizing s with
  | nil => exact h
  | cons op rest ih => exact ih _ (errConsistent_apply s op h)

/-- C10: every operation of the shared state store preserves
`last_error = None ↔ last_error_time = None`: both start as `None`,
`set_error` makes both non-`None` (message and current time),
`clear_error` resets both to `None`, and the remaining operations
(`update_device_status` and the running-flag assignments; the getters
do not mutate) leave both fields untouched. -/
theorem c10_error_slot_consistency :
    (∀ ops : List StateOp, errConsistent (runState SharedState.init ops)) ∧
    (∀ (s : SharedState) (error : String) (now : ℚ),
      (s.set_error error now).last_error = some error ∧
      (s.set_error error now).last_error_time = some now) ∧
    (∀ s : SharedState,
      s.clear_error.last_error = none ∧ s.clear_error.last_error_time = none) ∧
    (∀ (s : SharedState) (device_id : Nat) (status : DeviceStatus),
      (applyStateOp s (StateOp.updateDeviceStatus device_id status)).last_error
          = s.last_error ∧
      (applyStateOp s
          (StateOp.updateDeviceStatus device_id status)).last_error_time
          = s.last_error_time) ∧
    (∀ (s : SharedState) (b : Bool),
      (applyStateOp s (StateOp.setModbusRunning b)).last_error = s.last_error ∧
      (applyStateOp s (StateOp.setModbusRunning b)).last_error_time
          = s.last_error_time ∧
      (applyStateOp s (StateOp.setWebRunning b)).last_error = s.last_error ∧
      (applyStateOp s (StateOp.setWebRunning b)).last_error_time
          = s.last_error_time) := by
  refine ⟨fun ops => errConsistent_run _ ops (by simp [SharedState.init, errConsistent]),
    fun s e now => ⟨rfl, rfl⟩, fun s => ⟨rfl, rfl⟩,
    fun s id st => ⟨rfl, rfl⟩, fun s b => ⟨rfl, rfl, rfl, rfl⟩⟩

/-! ### C3: the cache TTL boundary -/

theorem runCache_cache_timeout (c : ModbusCache) (ops : List CacheOp) :
    (runCache c ops).cache_timeout = c.cache_timeout := by
  induction ops generalizing c with
  | nil => rfl
  | cons op rest ih =>
    cases op with
    | set slave_id data t => exact ih (c.set t slave_id data)

theorem runCache_lookup (c : ModbusCache) (ops : List CacheOp) (slave_id : Nat) :
    alookup slave_id (runCache c ops).data_cache =
      (match lastSet slave_id ops with
       | some e => some e
       | none => alookup slave_id c.data_cache) := by
  induction ops generalizing c with
  | nil => rfl
  | cons op rest ih =>
    cases op with
    | set id' data t =>
      rw [runCache, ih]
      show _ = (match lastSet slave_id (CacheOp.set id' data t :: rest) with
        | some e => some e
        | none => alookup slave_id c.data_cache)
      rw [lastSet]
      cases hl : lastSet slave_id rest with
      | some e => simp
      | none =>
        by_cases hid : id' = slave_id
        · subst hid
          simp [ModbusCache.set, alookup_aupdate_self]
        · simp [ModbusCache.set, alookup_aupdate_ne _ _ hid, hid]

theorem runCache_mk0_lookup (ttl t0 : ℚ) (ops : List CacheOp) (slave_id : Nat) :
    alookup slave_id (runCache (ModbusCache.mk0 ttl t0) ops).data_cache =
      lastSet slave_id ops := by
  rw [runCache_lookup]
  cases lastSet slave_id ops <;> rfl

/-- C3 counterexample: with `ttl = 5`, an entry stored at time `0` and
read back at time `5` — age exactly `ttl` — is still returned
(`get` tests `now - timestamp <= timeout`), where the claim demands
that `get` report absent at age exactly `ttl`. -/
theorem c3_counterexample_boundary_still_valid :
    ((ModbusCache.mk0 5 0).set 0 2
        [{ type := RegType.IR, address := 0, value := 2300 }]).get 5 2 =
      some [{ type := RegType.IR, address := 0, value := 2300 }] ∧
    ((ModbusCache.mk0 5 0).set 0 2
        [{ type := RegType.IR, address := 0, value := 2300 }]).get 5 2 ≠
      none := by
  have h1 : ((ModbusCache.mk0 5 0).set 0 2
      [{ type := RegType.IR, address := 0, value := 2300 }]).get 5 2 =
      some [{ type := RegType.IR, address := 0, value := 2300 }] := by
    show (if (5 : ℚ) - 0 ≤ 5 then _ else none) = _
    norm_num
  exact ⟨h1, by rw [h1]; simp⟩

/-- C3 (amended): for any history of `set` calls on a fresh cache,
`get(d)` at time `now` returns a value `v` iff the most recent
`set(d, v)` happened at a time `ts` with `now - ts ≤ ttl` — so it
returns exactly the most recently stored set, and an entry whose age is
exactly `ttl` is still served; `get` never mutates the cache. -/
theorem c3_cache_get_iff (ops : List CacheOp) (ttl t0 now : ℚ)
    (slave_id : Nat) (v : ValueSet) :
    (runCache (ModbusCache.mk0 ttl t0) ops).get now slave_id = some v ↔
      ∃ ts : ℚ, lastSet slave_id ops = some (v, ts) ∧ now - ts ≤ ttl := by
  simp only [ModbusCache.get, runCache_cache_timeout, runCache_mk0_lookup]
  cases hl : lastSet slave_id ops with
  | none => simp
  | some e =>
    obtain ⟨data, ts⟩ := e
    show (if now - ts ≤ (ModbusCache.mk0 ttl t0).cache_timeout then some data
        else none) = some v ↔ _
    have hts : (ModbusCache.mk0 ttl t0).cache_timeout = ttl := rfl
    rw [hts]
    by_cases hle : now - ts ≤ ttl
    · rw [if_pos hle]
      constructor
      · intro h
        obtain rfl : data = v := Option.some.inj h
        exact ⟨ts, rfl, hle⟩
      · rintro ⟨ts', h1, _⟩
        obtain ⟨h2, h3⟩ := Prod.mk.inj (Option.some.inj h1)
        rw [h2]
    · rw [if_neg hle]
      constructor
      · intro h
        exact Option.noConfusion h
      · rintro ⟨ts', h1, h2⟩
        obtain ⟨h2', h3⟩ := Prod.mk.inj (Option.some.inj h1)
        exact absurd (h3 ▸ h2) hle

/-! ### C1: register writes land in the swapped space -/

/-- The device-3 style ValueSet used to exhibit the routing: one IR
item, two HR items, one CO item. -/
def c1Data : ValueSet :=
  [ { type := RegType.IR, address := 0, value := 200 },
    { type := RegType.HR, address := 50, value := 220 },
    { type := RegType.HR, address := 51, value := 1 },
    { type := RegType.CO, address := 0, value := 0 } ]

/-- The result of `_update_slave_data` for device 3 on `c1Data` at
time `0`, from all-zero registers and empty shared state. -/
def c1Result : SlaveContext × SharedState :=
  updateSlaveData SlaveContext.init SharedState.init 3 "AC Controller" c1Data 0

/-- C1 (failing input): `_update_slave_data` routes `IR` items through
function code 3 and `HR` items through function code 4, which the
protocol datastore decodes to the holding-register and input-register
blocks respectively — so after the update the `IR` value 200 sits in
the holding block (input block still 0) and the `HR` values sit in the
input block (holding block still 0), while the claim requires `IR` in
the input space and `HR` in the holding space; the published
`SharedDeviceStatus` snapshot carries the full ValueSet. -/
theorem c1_ir_hr_spaces_swapped :
    c1Result.1.read Space.input 0 = 0 ∧
    c1Result.1.read Space.holding 0 = 200 ∧
    c1Result.1.read Space.holding 50 = 0 ∧
    c1Result.1.read Space.input 50 = 220 ∧
    c1Result.1.read Space.input 51 = 1 ∧
    c1Result.1.read Space.coil 0 = 0 ∧
    c1Result.2.get_device_status 3 =
      some { name := "AC Controller", data := c1Data, last_update := 0 } :=
  ⟨rfl, rfl, rfl, rfl, rfl, rfl, rfl⟩

/-! ### C2: the control command with address 0 -/

/-- A concrete device-6 snapshot present in the shared store. -/
def c2Status : DeviceStatus :=
  { name := "Smart Light Controller"
    data := [ { type := RegType.CO, address := 0, value := 1 },
              { type := RegType.HR, address := 0, value := 50 },
              { type := RegType.HR, address := 1, value := 3000 } ]
    last_update := 10 }

/-- A shared state holding the device-6 snapshot. -/
def c2State : SharedState :=
  { SharedState.init with device_status := [(6, c2Status)] }

/-- C2 (failing input): the control message
`{deviceId:"6", registerType:"HR", address:0, value:80}` is dropped —
no protocol write, device-pool cache untouched — because the guard
`all([device_id, register_type, address, value is not None])` treats
the integer address `0` as falsy; the identical message at address `1`
goes through and issues `write_register(1, 80, unit=6)` followed by the
cache mirror, isolating the divergence to the address-0 truthiness. -/
theorem c2_control_address_zero_dropped :
    handleControl c2State DeviceConnectionManager.init 11
        { deviceId := some "6", registerType := some "HR",
          address := some 0, value := some 80 } =
      ([], DeviceConnectionManager.init) ∧
    handleControl c2State DeviceConnectionManager.init 11
        { deviceId := some "6", registerType := some "HR",
          address := some 1, value := some 80 } =
      ([WriteAction.writeRegister 1 80 6],
       DeviceConnectionManager.init.update_device_state "6" c2Status 11) := by
  constructor
  · rfl
  · rfl

/-! ### C4: the rolling error counter -/

theorem processSlaves_spec (max_errors : Nat) (outcomes : List Bool) (c : Nat)
    (h : c < max_errors) :
    ((processSlaves max_errors outcomes c).2 = true ↔
      max_errors ≤ c + countFails outcomes) ∧
    ((processSlaves max_errors outcomes c).2 = false →
      (processSlaves max_errors outcomes c).1 = c + countFails outcomes) := by
  induction outcomes generalizing c with
  | nil =>
    rw [show processSlaves max_errors [] c = (c, false) from rfl,
      show countFails [] = 0 from rfl]
    constructor
    · constructor
      · intro hh
        exact absurd hh (by simp)
      · intro hh
        exact absurd hh (by omega)
    · intro _
      omega
  | cons b rest ih =>
    cases b with
    | true =>
      rw [show processSlaves max_errors (true :: rest) c =
          (if max_errors ≤ c + 1 then (c + 1, true)
           else processSlaves max_errors rest (c + 1)) from rfl,
        show countFails (true :: rest) = countFails rest + 1 from rfl]
      by_cases hm : max_errors ≤ c + 1
      · rw [if_pos hm]
        constructor
        · constructor
          · intro _
            omega
          · intro _
            rfl
        · intro hh
          exact absurd hh (by simp)
      · rw [if_neg hm]
        obtain ⟨ih1, ih2⟩ := ih (c + 1) (by omega)
        constructor
        · rw [ih1]
          omega
        · intro hh
          rw [ih2 hh]
          omega
    | false =>
      rw [show processSlaves max_errors (false :: rest) c =
          processSlaves max_errors rest c from rfl,
        show countFails (false :: rest) = countFails rest from rfl]
      exact ih c h

/-- C4: from `error_count < max_errors`, one engine tick (a) transitions
to the terminal stopped state (`running = false`, fatal exception
propagated) exactly when the counter — zeroed first if the 60-second
window since the last reset has elapsed — reaches `max_errors` during
the tick, (b) otherwise increments the counter by the number of failed
per-device updates and keeps running, and (c) a tick after the window
has elapsed with no failures leaves the counter at zero with the engine
still running and no fatal stop. -/
theorem c4_error_counter_fatal_stop (s : EngineState) (now : ℚ)
    (outcomes : List Bool) (hrun : s.running = true) (hfat : s.fatal = false)
    (hlt : s.error_count < s.max_errors) :
    ((engineTick s now outcomes).fatal = true ∧
        (engineTick s now outcomes).running = false ↔
      s.max_errors ≤ resetAdjusted s now + countFails outcomes) ∧
    ((engineTick s now outcomes).fatal = false →
      (engineTick s now outcomes).error_count =
          resetAdjusted s now + countFails outcomes ∧
      (engineTick s now outcomes).running = true) ∧
    (60 ≤ now - s.last_error_reset →
      (engineTick s now []).error_count = 0 ∧
      (engineTick s now []).running = true ∧
      (engineTick s now []).fatal = false) := by
  by_cases hwin : 60 ≤ now - s.last_error_reset
  · have hadj : resetAdjusted s now = 0 := if_pos hwin
    have e1 : engineTick s now outcomes =
        (if (processSlaves s.max_errors outcomes 0).2 = true then
          { s with error_count := (processSlaves s.max_errors outcomes 0).1,
                   last_error_reset := now, running := false, fatal := true }
        else
          { s with error_count := (processSlaves s.max_errors outcomes 0).1,
                   last_error_reset := now }) := by
      rw [engineTick, if_pos hrun]
      simp only [if_pos hwin]
    obtain ⟨hs1, hs2⟩ := processSlaves_spec s.max_errors outcomes 0 (by omega)
    refine ⟨?_, ?_, fun _ => ?_⟩
    · rw [e1, hadj]
      cases hp : (processSlaves s.max_errors outcomes 0).2 with
      | true =>
        rw [if_pos (show (true : Bool) = true from rfl)]
        constructor
        · intro _
          exact hs1.mp hp
        · intro _
          exact ⟨rfl, rfl⟩
      | false =>
        rw [if_neg (show ¬ ((false : Bool) = true) by simp)]
        constructor
        · intro hcontra
          exact absurd hcontra.1 (by simp [hfat])
        · intro hge
          exact absurd (hs1.mpr hge) (by simp [hp])
    · rw [e1, hadj]
      cases hp : (processSlaves s.max_errors outcomes 0).2 with
      | true =>
        rw [if_pos (show (true : Bool) = true from rfl)]
        intro hcontra
        exact absurd hcontra (by simp)
      | false =>
        rw [if_neg (show ¬ ((false : Bool) = true) by simp)]
        intro _
        exact ⟨hs2 hp, hrun⟩
    · have e3 : engineTick s now [] =
          { s with error_count := 0, last_error_reset := now } := by
        rw [engineTick, if_pos hrun]
        simp only [if_pos hwin]
        rfl
      rw [e3]
      exact ⟨rfl, hrun, hfat⟩
  · have hadj : resetAdjusted s now = s.error_count := if_neg hwin
    have e1 : engineTick s now outcomes =
        (if (processSlaves s.max_errors outcomes s.error_count).2 = true then
          { s with
              error_count :=
                (processSlaves s.max_errors outcomes s.error_count).1,
              running := false, fatal := true }
        else
          { s with
              error_count :=
                (processSlaves s.max_errors outcomes s.error_count).1 }) := by
      rw [engineTick, if_pos hrun]
      simp only [if_neg hwin]
    obtain ⟨hs1, hs2⟩ :=
      processSlaves_spec s.max_errors outcomes s.error_count hlt
    refine ⟨?_, ?_, fun hwin' => absurd hwin' hwin⟩
    · rw [e1, hadj]
      cases hp : (processSlaves s.max_errors outcomes s.error_count).2 with
      | true =>
        rw [if_pos (show (true : Bool) = true from rfl)]
        constructor
        · intro _
          exact hs1.mp hp
        · intro _
          exact ⟨rfl, rfl⟩
      | false =>
        rw [if_neg (show ¬ ((false : Bool) = true) by simp)]
        constructor
        · intro hcontra
          exact absurd hcontra.1 (by simp [hfat])
        · intro hge
          exact absurd (hs1.mpr hge) (by simp [hp])
    · rw [e1, hadj]
      cases hp : (processSlaves s.max_errors outcomes s.error_count).2 with
      | true =>
        rw [if_pos (show (true : Bool) = true from rfl)]
        intro hcontra
        exact absurd hcontra (by simp)
      | false =>
        rw [if_neg (show ¬ ((false : Bool) = true) by simp)]
        intro _
        exact ⟨hs2 hp, hrun⟩

/-- The concrete engine state of the C4 witness: `max_errors = 3`, two
failures already counted, last reset at time 0. -/
def c4S : EngineState :=
  { error_count := 2, max_errors := 3, last_error_reset := 0,
    running := true, fatal := false }

/-- C4 witness: the theorem instantiated at `c4S`, tick time 60, no
device failures — the claim's `max_errors - 1` errors followed by a
window expiry. -/
theorem c4_error_counter_fatal_stop_witness :
    ((engineTick c4S 60 []).fatal = true ∧
        (engineTick c4S 60 []).running = false ↔
      c4S.max_errors ≤ resetAdjusted c4S 60 + countFails []) ∧
    ((engineTick c4S 60 []).fatal = false →
      (engineTick c4S 60 []).error_count =
          resetAdjusted c4S 60 + countFails [] ∧
      (engineTick c4S 60 []).running = true) ∧
    (60 ≤ (60 : ℚ) - c4S.last_error_reset →
      (engineTick c4S 60 []).error_count = 0 ∧
      (engineTick c4S 60 []).running = true ∧
      (engineTick c4S 60 []).fatal = false) :=
  c4_error_counter_fatal_stop c4S 60 [] rfl rfl (by decide)
/-! ### C9: per-device update intervals -/

theorem publishTimes_chain (interval : ℚ) (ticks : List ℚ) (last : ℚ) :
    List.Chain (fun a b => interval ≤ b - a) last
      (publishTimes interval ticks last) := by
  induction ticks generalizing last with
  | nil => exact List.Chain.nil
  | cons t rest ih =>
    rw [publishTimes]
    by_cases h : interval ≤ t - last
    · rw [if_pos h]
      exact List.Chain.cons h (ih t)
    · rw [if_neg h]
      exact ih last

/-- C9: along any run of engine ticks, a device is updated only when
`current_time - last_updates[d] ≥ update_interval`, so every published
snapshot time is at least the interval after the previous one (chained
from the initial `last_updates` value) — in particular any two
consecutive published snapshots for the device are at least
`interval - 0.1` (one tick) apart. -/
theorem c9_update_interval_respected (interval : ℚ) (ticks : List ℚ)
    (last : ℚ) :
    List.Chain (fun a b => interval ≤ b - a) last
      (publishTimes interval ticks last) ∧
    List.Chain' (fun a b => interval - 1/10 ≤ b - a)
      (publishTimes interval ticks last) := by
  have hc := publishTimes_chain interval ticks last
  refine ⟨hc, ?_⟩
  have hc' : List.Chain' (fun a b => interval ≤ b - a)
      (last :: publishTimes interval ticks last) := hc
  exact (hc'.tail).imp (fun a b h => by linarith)

/-! ### C5: the pool never exceeds `max_connections` -/

theorem connect_ok_iff (p : ConnectionManager) (ws : Nat) (now : ℚ)
    (p' : ConnectionManager) :
    p.connect ws now = Except.ok p' ↔
      p.connections.card < p.max_connections ∧
      p' = { p with connections := insert ws p.connections,
                    last_heartbeat := aupdate ws now p.last_heartbeat } := by
  rw [ConnectionManager.connect]
  by_cases h : p.max_connections ≤ p.connections.card
  · rw [if_pos h]
    constructor
    · intro hh
      exact Except.noConfusion hh
    · rintro ⟨h1, _⟩
      omega
  · rw [if_neg h]
    constructor
    · intro hh
      exact ⟨by omega, (Except.ok.inj hh).symm⟩
    · rintro ⟨_, rfl⟩
      rfl

theorem runPool_card_le (p : ConnectionManager) (ops : List PoolOp)
    (h : p.connections.card ≤ p.max_connections) :
    (runPool p ops).connections.card ≤ p.max_connections := by
  induction ops generalizing p with
  | nil => exact h
  | cons op rest ih =>
    cases op with
    | connect ws t =>
      rw [runPool]
      cases hc : p.connect ws t with
      | ok p' =>
        obtain ⟨hlt, rfl⟩ := (connect_ok_iff p ws t p').mp hc
        have hcard : (insert ws p.connections).card ≤ p.max_connections := by
          have := Finset.card_insert_le ws p.connections
          omega
        exact ih _ hcard
      | error e => exact ih p h
    | disconnect ws =>
      rw [runPool]
      apply ih
      have := Finset.card_erase_le (s := p.connections) (a := ws)
      show (p.connections.erase ws).card ≤ p.max_connections
      omega

/-- C5: over any sequence of connect/disconnect calls starting from a
pool within its limit, the pool size never exceeds `max_connections`;
a connect attempted on a full pool raises the rejection (accepting
nothing), and — since the raise happens before any mutation — the run
continues from the unchanged pool, all previously accepted connections
still members. -/
theorem c5_max_connections_invariant (p : ConnectionManager)
    (ops : List PoolOp) (ws : Nat) (now : ℚ)
    (hinv : p.connections.card ≤ p.max_connections) :
    (runPool p ops).connections.card ≤ p.max_connections ∧
    (p.max_connections ≤ p.connections.card →
      p.connect ws now = Except.error "Maximum connection limit reached" ∧
      runPool p (PoolOp.connect ws now :: ops) = runPool p ops) := by
  constructor
  · exact runPool_card_le p ops hinv
  · intro hfull
    have herr : p.connect ws now =
        Except.error "Maximum connection limit reached" := by
      rw [ConnectionManager.connect, if_pos hfull]
    constructor
    · exact herr
    · rw [runPool, herr]

/-- The full two-member pool of the C5 witness (`max_connections = 2`). -/
def c5P : ConnectionManager :=
  { connections := {1, 2}
    max_connections := 2
    last_heartbeat := [(1, 0), (2, 0)]
    heartbeat_timeout := 30 }

/-- C5 witness: the theorem instantiated at the full concrete pool
`c5P`, one further connect attempt, and a subsequent disconnect. -/
theorem c5_max_connections_invariant_witness :
    (runPool c5P [PoolOp.disconnect 1]).connections.card ≤
        c5P.max_connections ∧
    (c5P.max_connections ≤ c5P.connections.card →
      c5P.connect 3 5 = Except.error "Maximum connection limit reached" ∧
      runPool c5P (PoolOp.connect 3 5 :: [PoolOp.disconnect 1]) =
        runPool c5P [PoolOp.disconnect 1]) :=
  c5_max_connections_invariant c5P [PoolOp.disconnect 1] 3 5 (by decide)

/-! ### C6: the liveness sweep -/

theorem foldl_disconnect_connections (l : List Nat) (p : ConnectionManager)
    (ws : Nat) :
    (ws ∈ (l.foldl (fun q w => q.disconnect w) p).connections ↔
      ws ∈ p.connections ∧ ws ∉ l) := by
  induction l generalizing p with
  | nil => simp
  | cons w rest ih =>
    rw [List.foldl_cons, ih]
    simp only [ConnectionManager.disconnect, Finset.mem_erase, List.mem_cons]
    constructor
    · rintro ⟨⟨hne, hmem⟩, hnot⟩
      exact ⟨hmem, by tauto⟩
    · rintro ⟨hmem, hnot⟩
      exact ⟨⟨by tauto, hmem⟩, by tauto⟩

theorem foldl_disconnect_heartbeat (l : List Nat) (p : ConnectionManager)
    (ws : Nat) :
    alookup ws (l.foldl (fun q w => q.disconnect w) p).last_heartbeat =
      (if ws ∈ l then none else alookup ws p.last_heartbeat) := by
  induction l generalizing p with
  | nil => simp
  | cons w rest ih =>
    rw [List.foldl_cons, ih]
    by_cases h : ws ∈ rest
    · simp [h]
    · simp only [h, if_false, List.mem_cons, or_false]
      show alookup ws (aerase w p.last_heartbeat) = _
      rw [alookup_aerase]
      by_cases h2 : ws = w
      · simp [h2]
      · have h3 : ¬ w = ws := fun e => h2 e.symm
        simp [h2, h3]

theorem foldl_disconnect_fields (l : List Nat) (p : ConnectionManager) :
    (l.foldl (fun q w => q.disconnect w) p).heartbeat_timeout =
      p.heartbeat_timeout ∧
    (l.foldl (fun q w => q.disconnect w) p).max_connections =
      p.max_connections := by
  induction l generalizing p with
  | nil => exact ⟨rfl, rfl⟩
  | cons w rest ih => exact ih (p.disconnect w)

/-- C6: after a single `check_heartbeats` run at time `now`, a
connection with a recorded heartbeat `t` is removed from the pool and
from heartbeat tracking exactly when `now - t > heartbeat_timeout`
(strictly), remains a member with its heartbeat entry intact when
`now - t ≤ heartbeat_timeout`, and a repeated `disconnect` of the same
connection is a no-op leaving the pool state unchanged. -/
theorem c6_heartbeat_sweep (p : ConnectionManager) (now : ℚ) (ws : Nat)
    (t : ℚ) (hmem : ws ∈ p.connections)
    (hhb : alookup ws p.last_heartbeat = some t) :
    (ws ∈ (p.check_heartbeats now).connections ↔
      now - t ≤ p.heartbeat_timeout) ∧
    (p.heartbeat_timeout < now - t →
      ws ∉ (p.check_heartbeats now).connections ∧
      alookup ws (p.check_heartbeats now).last_heartbeat = none) ∧
    (now - t ≤ p.heartbeat_timeout →
      ws ∈ (p.check_heartbeats now).connections ∧
      alookup ws (p.check_heartbeats now).last_heartbeat = some t) ∧
    (p.disconnect ws).disconnect ws = p.disconnect ws := by
  have hwsin : ws ∈ ((p.connections.filter
        (fun w => p.timedOut now w)).sort (· ≤ ·)) ↔
      p.heartbeat_timeout < now - t := by
    rw [Finset.mem_sort, Finset.mem_filter]
    simp [ConnectionManager.timedOut, hhb, hmem]
  have hconn := foldl_disconnect_connections
    ((p.connections.filter (fun w => p.timedOut now w)).sort (· ≤ ·)) p ws
  have hhb2 := foldl_disconnect_heartbeat
    ((p.connections.filter (fun w => p.timedOut now w)).sort (· ≤ ·)) p ws
  refine ⟨?_, ?_, ?_, ?_⟩
  · rw [ConnectionManager.check_heartbeats, hconn]
    constructor
    · rintro ⟨_, hnot⟩
      by_contra hgt
      exact hnot (hwsin.mpr (by linarith))
    · intro hle
      refine ⟨hmem, fun hin => ?_⟩
      have := hwsin.mp hin
      linarith
  · intro hgt
    constructor
    · rw [ConnectionManager.check_heartbeats, hconn]
      rintro ⟨_, hnot⟩
      exact hnot (hwsin.mpr hgt)
    · rw [ConnectionManager.check_heartbeats, hhb2, if_pos (hwsin.mpr hgt)]
  · intro hle
    constructor
    · rw [ConnectionManager.check_heartbeats, hconn]
      refine ⟨hmem, fun hin => ?_⟩
      have := hwsin.mp hin
      linarith
    · rw [ConnectionManager.check_heartbeats, hhb2,
        if_neg (fun hin => by have := hwsin.mp hin; linarith)]
      exact hhb
  · simp [ConnectionManager.disconnect, aerase_aerase, Finset.erase_idem]

/-- The C6 witness pool: two members, one stale heartbeat (time 0) and
one fresh (time 29), timeout 30. -/
def c6P : ConnectionManager :=
  { connections := {1, 2}
    max_connections := 100
    last_heartbeat := [(1, 0), (2, 29)]
    heartbeat_timeout := 30 }

/-- C6 witness: the theorem instantiated at `c6P`, sweep time 31,
connection 1 (heartbeat at time 0, hence 31 seconds stale). -/
theorem c6_heartbeat_sweep_witness :
    ((1 : Nat) ∈ (c6P.check_heartbeats 31).connections ↔
      (31 : ℚ) - 0 ≤ c6P.heartbeat_timeout) ∧
    (c6P.heartbeat_timeout < (31 : ℚ) - 0 →
      (1 : Nat) ∉ (c6P.check_heartbeats 31).connections ∧
      alookup 1 (c6P.check_heartbeats 31).last_heartbeat = none) ∧
    ((31 : ℚ) - 0 ≤ c6P.heartbeat_timeout →
      (1 : Nat) ∈ (c6P.check_heartbeats 31).connections ∧
      alookup 1 (c6P.check_heartbeats 31).last_heartbeat = some 0) ∧
    (c6P.disconnect 1).disconnect 1 = c6P.disconnect 1 :=
  c6_heartbeat_sweep c6P 31 1 0 (by decide) rfl

/-! ### C7: the initial snapshot sent on acceptance -/

/-- The device-1 snapshot sitting in the authoritative store in the C7
counterexample. -/
def c7Status : DeviceStatus :=
  { name := "Temperature and Humidity Sensor"
    data := [ { type := RegType.IR, address := 0, value := 200 },
              { type := RegType.IR, address := 1, value := 500 },
              { type := RegType.IR, address := 2, value := 50 } ]
    last_update := 1 }

/-- A shared state whose authoritative store holds device 1. -/
def c7State : SharedState :=
  { SharedState.init with device_status := [(1, c7Status)] }

/-- C7 counterexample: a fresh device pool accepts connection 5 at time
2 while the authoritative store (`c7State`) holds a snapshot for
device 1 — yet the initial `device_status` message carries the pool's
own empty `_device_states` cache, not one entry per device in the
store, so the claim fails at this input. -/
theorem c7_counterexample_initial_snapshot_empty :
    DeviceConnectionManager.init.connect 5 2 =
      Except.ok
        ({ base := { connections := {5}, max_connections := 100,
                     last_heartbeat := [(5, 2)], heartbeat_timeout := 30 },
           device_states := [], last_update_time := [] },
         { type := "device_status", timestamp := 2, devices := [] }) ∧
    c7State.get_device_status 1 = some c7Status ∧
    ([] : List (String × DeviceStatus)) ≠ [("1", c7Status)] := by
  refine ⟨rfl, rfl, by simp⟩

/-- C7 (amended): when the pool has room, acceptance records
`last_heartbeat = now` for the new connection, adds it to the pool, and
immediately sends it a `device_status` message whose payload is the
pool's internal `_device_states` cache (the mirror populated by
`request_data`/`control` handling), not the authoritative store. -/
theorem c7_connect_initial_payload (d : DeviceConnectionManager) (ws : Nat)
    (now : ℚ) (hroom : d.base.connections.card < d.base.max_connections) :
    d.connect ws now =
      Except.ok
        ({ d with base := { d.base with
              connections := insert ws d.base.connections,
              last_heartbeat := aupdate ws now d.base.last_heartbeat } },
         { type := "device_status", timestamp := now,
           devices := d.device_states }) ∧
    alookup ws (aupdate ws now d.base.last_heartbeat) = some now ∧
    ws ∈ insert ws d.base.connections := by
  refine ⟨?_, alookup_aupdate_self ws now d.base.last_heartbeat,
    Finset.mem_insert_self ws d.base.connections⟩
  rw [DeviceConnectionManager.connect, ConnectionManager.connect,
    if_neg (by omega)]

/-- C7 witness: the amended theorem instantiated at a fresh pool,
connection 5, time 2. -/
theorem c7_connect_initial_payload_witness :
    DeviceConnectionManager.init.connect 5 2 =
      Except.ok
        ({ DeviceConnectionManager.init with
            base := { DeviceConnectionManager.init.base with
              connections := insert 5 DeviceConnectionManager.init.base.connections,
              last_heartbeat :=
                aupdate 5 2 DeviceConnectionManager.init.base.last_heartbeat } },
         { type := "device_status", timestamp := 2,
           devices := DeviceConnectionManager.init.device_states }) ∧
    alookup 5 (aupdate 5 2 DeviceConnectionManager.init.base.last_heartbeat) =
      some 2 ∧
    (5 : Nat) ∈ insert 5 DeviceConnectionManager.init.base.connections :=
  c7_connect_initial_payload DeviceConnectionManager.init 5 2 (by decide)

/-! ### C8: generator shape and ranges -/

/-- C8: under the `randint` contract, every known device id 1-7
produces a ValueSet with a fixed id-determined list of
`(space, address)` pairs whose values all lie within the documented
range for that slot; device 2 yields exactly 5 input-register entries
at addresses 0-4; and every id outside 1-7 yields the empty ValueSet
(no failure). -/
theorem c8_generator_shape_and_ranges (r : Nat → Nat → Nat)
    (hr : RandintSpec r) :
    (∀ slave_id : Nat,
      (generate_simulated_data r slave_id).map
          (fun it => (it.type, it.address)) = fixedShape slave_id) ∧
    (∀ (slave_id : Nat) (it : DataItem),
      it ∈ generate_simulated_data r slave_id →
      ∃ lo hi : Nat, docBounds slave_id it.type it.address = some (lo, hi) ∧
        lo ≤ it.value ∧ it.value ≤ hi) ∧
    ((generate_simulated_data r 2).length = 5 ∧
      (generate_simulated_data r 2).map (fun it => (it.type, it.address)) =
        [(RegType.IR, 0), (RegType.IR, 1), (RegType.IR, 2), (RegType.IR, 3),
         (RegType.IR, 4)]) ∧
    (∀ slave_id : Nat, slave_id = 0 ∨ 8 ≤ slave_id →
      generate_simulated_data r slave_id = []) := by
  refine ⟨?_, ?_, ⟨rfl, rfl⟩, ?_⟩
  · intro slave_id
    unfold generate_simulated_data fixedShape
    split_ifs <;> rfl
  · intro slave_id it hmem
    unfold generate_simulated_data at hmem
    split_ifs at hmem with h1 h2 h3 h4 h5 h6 h7
    · subst h1
      unfold generateTemperatureHumidityData at hmem
      simp only [List.mem_cons, List.not_mem_nil, or_false] at hmem
      rcases hmem with rfl | rfl | rfl <;>
        exact ⟨_, _, rfl, (hr _ _ (by omega)).1, (hr _ _ (by omega)).2⟩
    · subst h2
      unfold generatePowerMeterData at hmem
      simp only [List.mem_cons, List.not_mem_nil, or_false] at hmem
      rcases hmem with rfl | rfl | rfl | rfl | rfl <;>
        exact ⟨_, _, rfl, (hr _ _ (by omega)).1, (hr _ _ (by omega)).2⟩
    · subst h3
      unfold generateAcControllerData at hmem
      simp only [List.mem_cons, List.not_mem_nil, or_false] at hmem
      rcases hmem with rfl | rfl | rfl | rfl <;>
        first
        | exact ⟨_, _, rfl, (hr _ _ (by omega)).1, (hr _ _ (by omega)).2⟩
        | exact ⟨0, 1, rfl, Nat.zero_le _, by decide⟩
    · subst h4
      unfold generateAirQualityData at hmem
      simp only [List.mem_cons, List.not_mem_nil, or_false] at hmem
      rcases hmem with rfl | rfl | rfl <;>
        exact ⟨_, _, rfl, (hr _ _ (by omega)).1, (hr _ _ (by omega)).2⟩
    · subst h5
      unfold generatePlcIoData at hmem
      simp only [List.mem_cons, List.not_mem_nil, or_false] at hmem
      rcases hmem with rfl | rfl | rfl | rfl <;>
        exact ⟨_, _, rfl, (hr _ _ (by omega)).1, (hr _ _ (by omega)).2⟩
    · subst h6
      unfold generateLightControllerData at hmem
      simp only [List.mem_cons, List.not_mem_nil, or_false] at hmem
      rcases hmem with rfl | rfl | rfl <;>
        exact ⟨_, _, rfl, (hr _ _ (by omega)).1, (hr _ _ (by omega)).2⟩
    · subst h7
      unfold generateSmartPlugData at hmem
      simp only [List.mem_cons, List.not_mem_nil, or_false] at hmem
      rcases hmem with rfl | rfl | rfl <;>
        first
        | exact ⟨_, _, rfl, (hr _ _ (by omega)).1, (hr _ _ (by omega)).2⟩
        | exact ⟨0, 1, rfl, Nat.zero_le _, by decide⟩
    · exact absurd hmem (List.not_mem_nil it)
  · intro slave_id h
    rcases h with rfl | h8
    · rfl
    · unfold generate_simulated_data
      rw [if_neg (by omega), if_neg (by omega), if_neg (by omega),
        if_neg (by omega), if_neg (by omega), if_neg (by omega),
        if_neg (by omega)]

/-- C8 witness: the theorem applied to the lower-bound draw function
`fun lo _ => lo`, which satisfies the `randint` contract; projected
facts evaluated at unknown device id 99. -/
theorem c8_generator_shape_and_ranges_witness :
    ((generate_simulated_data (fun lo _ => lo) 2).length = 5 ∧
      (generate_simulated_data (fun lo _ => lo) 2).map
          (fun it => (it.type, it.address)) =
        [(RegType.IR, 0), (RegType.IR, 1), (RegType.IR, 2), (RegType.IR, 3),
         (RegType.IR, 4)]) ∧
    generate_simulated_data (fun lo _ => lo) 99 = [] ∧
    (∀ (it : DataItem), it ∈ generate_simulated_data (fun lo _ => lo) 2 →
      ∃ lo hi : Nat, docBounds 2 it.type it.address = some (lo, hi) ∧
        lo ≤ it.value ∧ it.value ≤ hi) := by
  have h := c8_generator_shape_and_ranges (fun lo _ => lo)
    (fun lo hi hle => ⟨Nat.le_refl lo, hle⟩)
  exact ⟨h.2.2.1, h.2.2.2 99 (Or.inr (by decide)), h.2.1 2⟩

end ModbusSim
